import Mathlib

/-!
Shallow embedding of the TinyG controller core
(src/firmware/tinyg_331.24/controller.c): the priority-ordered dispatch
loop, signal handlers, flow-control gates, line dispatcher, JSON G-code
envelope builder, response/prompt emitter and the status message table.

External collaborators (device I/O, parsers, planner, canonical machine)
are modelled as oracle fields of the system state, following the call
contracts the source depends on.
-/

namespace TinyG

/-- Status codes are 8-bit integers (`uint8_t`) in the source; they are
modelled as natural numbers.  The numbering is pinned by the `msgStatus`
table in controller.c (index 0 is OK, 1 Error, 2 Eagain, 3 Noop,
5 End of line, 6 End of file, ...). -/
def TG_OK : Nat := 0

/-- TG_EAGAIN, status code 2: the CONTINUE scheduling signal. -/
def TG_EAGAIN : Nat := 2

/-- TG_NOOP, status code 3. -/
def TG_NOOP : Nat := 3

/-- TG_EOF, status code 6 (message index 6 is "End of file"). -/
def TG_EOF : Nat := 6

/-- XIO devices used by controller.c: the USB console (`XIO_DEV_USB`),
the standard error device (`STD_ERROR`) and the program-memory
diagnostic script device (`XIO_DEV_PGM`). -/
inductive Device : Type
  | usb : Device
  | stdError : Device
  | pgm : Device
deriving DecidableEq, Repr

/-- Communications modes: `TG_TEXT_MODE`, `TG_JSON_MODE`, `TG_GRBL_MODE`. -/
inductive CommMode : Type
  | text : CommMode
  | json : CommMode
  | grbl : CommMode
deriving DecidableEq, Repr

/-- The controller singleton `tg` (struct tgController): version/build
identifiers, default and active input device, communications mode,
prompt-enabled flag and the input/output line buffers. -/
structure TgController : Type where
  version : Nat
  build : Nat
  default_src : Device
  src : Device
  communications_mode : CommMode
  prompt_enabled : Bool
  in_buf : String
  out_buf : String

/-- The full system state: the controller context, the edge-triggered
signal flags (set by ISRs outside this core), transition counters that
record the externally visible effects of `tg_reset`, `cm_feedhold` and
`cm_cycle_start`, oracle fields for the per-pass external callbacks and
parsers, the transmit-queue depths and planner occupancy, the pending
result of the non-blocking line read, and the accumulated emitter
output. -/
structure Sys : Type where
  tg : TgController
  sig_abort : Bool
  sig_feedhold : Bool
  sig_cycle_start : Bool
  resets : Nat
  feedholds : Nat
  cycle_starts : Nat
  gpio_status : Nat
  rpt_status : Nat
  plan_hold_status : Nat
  end_hold_status : Nat
  arc_status : Nat
  homing_status : Nat
  return_home_status : Nat
  tx_count : Device → Nat
  lo_water : Nat
  planner_free : Bool
  units_inches : Bool
  read_status : Nat
  read_line : String
  cfg_status : Nat
  json_status : Nat
  json_out : String
  gc_status : Nat
  emitted : List String

/-- Append emitter output (each element is one fprintf emission). -/
def emitAll (s : Sys) (out : List String) : Sys :=
  { s with emitted := s.emitted ++ out }

/-- The 32 status message strings msg_stat00 .. msg_stat31, verbatim
from the source (including the source typo in entry 17). -/
def msgStatus : List String :=
  [ "OK", "Error", "Eagain", "Noop", "Complete",
    "End of line", "End of file", "File not open",
    "Max file size exceeded", "No such device",
    "Buffer empty", "Buffer full - fatal", "Buffer full - non-fatal",
    "Quit", "Unrecognized command", "Number range error",
    "Expected command letter", "JSON sysntax error",
    "Input exceeds max length", "Output exceeds max length",
    "Internal error", "Bad number format", "Floating point error",
    "Arc specification error", "Zero length line", "Gcode input error",
    "Gcode feedrate error", "Gcode axis word missing",
    "Gcode modal group violation", "Homing cycle failed",
    "Max travel exceeded", "Max spindle speed exceeded" ]

/-- `tg_get_status_message`: the source reads `msgStatus[status]` with
no bounds check, so a status at or past the table length is an
out-of-bounds program-memory read (undefined behavior).  The embedding
makes that case observable as `none`. -/
def tg_get_status_message (status : Nat) : Option String :=
  msgStatus.get? status

/-- Total wrapper used where the source dereferences the table entry
directly; out-of-bounds reads are marked with a sentinel text. -/
def statusMessage (status : Nat) : String :=
  (tg_get_status_message status).getD ("<out-of-bounds>")

/-- Prompt fragment pr1. -/
def pr1 : String := "tinyg"

/-- Prompt fragment pr_in. -/
def pr_in : String := "[inch] ok> "

/-- Prompt fragment pr_mm. -/
def pr_mm : String := "[mm] ok> "

/-- The single fprintf emission of `_prompt_without_message`, chosen by
the externally owned unit-of-measure flag (`cm_get_units_mode`). -/
def promptString (inches : Bool) : String :=
  if inches then pr1 ++ pr_in else pr1 ++ pr_mm

/-- `_prompt_without_message`: emits the unit-aware prompt. -/
def _prompt_without_message (inches : Bool) : List String :=
  [promptString inches]

/-- `_prompt_with_message`: emits the status message and the buffer
(format "%S: %s \n"), then the prompt. -/
def _prompt_with_message (inches : Bool) (status : Nat) (buf : String) : List String :=
  (statusMessage status ++ (": ") ++ buf ++ (" \n")) :: _prompt_without_message inches

/-- `_dispatch_return`: the response emitter.  JSON mode emits the
buffer verbatim; GRBL mode emits exactly "ok" on TG_OK and exactly
"err" otherwise; TEXT mode emits only the prompt for TG_OK, TG_EAGAIN
and TG_NOOP, and message plus buffer plus prompt for everything else. -/
def _dispatch_return (mode : CommMode) (inches : Bool) (status : Nat) (buf : String) :
    List String :=
  match mode with
  | CommMode.json => [buf]
  | CommMode.grbl => if status = TG_OK then [("ok")] else [("err")]
  | CommMode.text =>
      if status = TG_OK ∨ status = TG_EAGAIN ∨ status = TG_NOOP then
        _prompt_without_message inches
      else
        _prompt_with_message inches status buf

/-- Run the emitter against the current communications mode and append
its output to the emission trace. -/
def drState (s : Sys) (status : Nat) (buf : String) : Sys :=
  emitAll s (_dispatch_return s.tg.communications_mode s.units_inches status buf)

/-- `_set_active_source`: record the device as the active source; the
program-memory (diagnostic script) device clears the prompt-enabled
flag, any other device sets it. -/
def _set_active_source (s : Sys) (dev : Device) : Sys :=
  if dev = Device.pgm then
    { s with tg := { s.tg with src := dev, prompt_enabled := false } }
  else
    { s with tg := { s.tg with src := dev, prompt_enabled := true } }

/-- `tg_reset_source`: reset the active source to the default device. -/
def tg_reset_source (s : Sys) : Sys :=
  _set_active_source s s.tg.default_src

/-- Modelled from the spec: `tg_application_init` is defined outside
src/ (only its caller `tg_reset` is in controller.c).  Per the spec,
an abort must "fully reinitialize application/motion state (not
version/build fields) and reset the active input source to default,
discarding any alternate source".  The controller context is
reinitialized except version, build and the configured default device,
and the active source is reset through `_set_active_source`. -/
def tg_application_init (s : Sys) : Sys :=
  let s1 : Sys :=
    { s with tg := { s.tg with
        communications_mode := CommMode.text,
        in_buf := (""),
        out_buf := ("") } }
  _set_active_source s1 s1.tg.default_src

/-- `tg_reset`: application-level reset; counts as exactly one context
reset transition and performs the application reinitialization. -/
def tg_reset (s : Sys) : Sys :=
  tg_application_init { s with resets := s.resets + 1 }

/-- Modelled from the spec: `cm_feedhold` (canonical_machine.c, outside
src/) instructs the motion subsystem to begin a controlled
decelerate-and-hold; modelled as one feedhold-start transition. -/
def cm_feedhold (s : Sys) : Sys :=
  { s with feedholds := s.feedholds + 1 }

/-- Modelled from the spec: `cm_cycle_start` (canonical_machine.c,
outside src/) instructs the motion subsystem to resume from hold;
modelled as one cycle-resume transition. -/
def cm_cycle_start (s : Sys) : Sys :=
  { s with cycle_starts := s.cycle_starts + 1 }

/-- `_abort_handler`: NOOP when the abort flag is unset; otherwise the
flag is cleared first, then `tg_reset` runs on the flag-cleared state,
and TG_EAGAIN is returned. -/
def _abort_handler (s : Sys) : Nat × Sys :=
  if s.sig_abort = false then (TG_NOOP, s)
  else (TG_EAGAIN, tg_reset { s with sig_abort := false })

/-- `_feedhold_handler`: NOOP when the feedhold flag is unset;
otherwise clear the flag, then `cm_feedhold`, then TG_EAGAIN. -/
def _feedhold_handler (s : Sys) : Nat × Sys :=
  if s.sig_feedhold = false then (TG_NOOP, s)
  else (TG_EAGAIN, cm_feedhold { s with sig_feedhold := false })

/-- `_cycle_start_handler`: NOOP when the cycle-start flag is unset;
otherwise clear the flag, then `cm_cycle_start`, then TG_EAGAIN. -/
def _cycle_start_handler (s : Sys) : Nat × Sys :=
  if s.sig_cycle_start = false then (TG_NOOP, s)
  else (TG_EAGAIN, cm_cycle_start { s with sig_cycle_start := false })

/-- `_sync_to_tx_buffer`: TG_EAGAIN when the queued outbound byte count
of the USB device (`ds[XIO_DEV_USB]` in the source, a fixed device)
has reached the configured low-water mark, TG_OK otherwise. -/
def _sync_to_tx_buffer (s : Sys) : Nat :=
  if s.lo_water ≤ s.tx_count Device.usb then TG_EAGAIN else TG_OK

/-- `_sync_to_planner`: TG_EAGAIN when `mp_test_write_buffer` reports
no free planner write buffer, TG_OK otherwise. -/
def _sync_to_planner (s : Sys) : Nat :=
  if s.planner_free = false then TG_EAGAIN else TG_OK

/-- The value types used by the cmdObj fields of the JSON envelope:
VALUE_TYPE_PARENT, VALUE_TYPE_STRING, VALUE_TYPE_INTEGER. -/
inductive ValueType : Type
  | parent : ValueType
  | stringV : ValueType
  | integer : ValueType
deriving DecidableEq, Repr

/-- One cmdObj of the envelope: its token, its value type, and its
string or numeric value (unused slots hold the cmd_new_object
defaults). -/
structure CmdObj : Type where
  token : String
  value_type : ValueType
  string_value : String
  value : Nat
deriving DecidableEq, Repr

/-- `tg_make_json_gcode_response`: builds the four-element cmdObj
sequence for a G-code execution result: the "gc" group marker parent,
the "gc" string echo of the original block, the "st" integer status,
and the "msg" string holding the message text of that status.  The
status written into the envelope is exactly the status argument; the
building steps have no failure path that could change it. -/
def tg_make_json_gcode_response (status : Nat) (block : String) : List CmdObj :=
  [ { token := ("gc"), value_type := ValueType.parent,
      string_value := (""), value := 0 },
    { token := ("gc"), value_type := ValueType.stringV,
      string_value := block, value := 0 },
    { token := ("st"), value_type := ValueType.integer,
      string_value := (""), value := status },
    { token := ("msg"), value_type := ValueType.stringV,
      string_value := statusMessage status, value := 0 } ]

/-- Modelled from the spec: the external serializer
`js_make_json_string` (json_parser.c, outside src/) renders the cmdObj
sequence into the output buffer; field identifiers and nesting are
owned by it, so only that it is a function of the ordered field list
matters here. -/
def js_make_json_string (cmds : List CmdObj) : String :=
  String.intercalate (",") (cmds.map fun c =>
    match c.value_type with
    | ValueType.parent => c.token
    | ValueType.stringV => c.token ++ (":") ++ c.string_value
    | ValueType.integer => c.token ++ (":") ++ toString c.value)

/-- Modelled from the spec: external help content
(`help_print_general_help`, help.c, outside src/) written to the
output stream. -/
def help_print_general_help (s : Sys) : Sys :=
  emitAll s [("[help screen]")]

/-- `_test_T`: open the collected-system-tests program-memory file and
make the program-memory device the active source (`xio_open_pgm` is an
external device operation). -/
def _test_T (s : Sys) : Nat × Sys :=
  (TG_OK, _set_active_source s Device.pgm)

/-- `_test_U`: open the alternate test program-memory file and make the
program-memory device the active source. -/
def _test_U (s : Sys) : Nat × Sys :=
  (TG_OK, _set_active_source s Device.pgm)

/-- The left-brace character, written by code point to keep brace
characters out of the literals. -/
def lbrace : Char := Char.ofNat 123

/-- The classification of a completed input line by the switch in
`_dispatch`, on the uppercased first character: T and U run the test
files, NUL (an empty line) is a blank line, H is the help screen, $ and
? go to the text-mode config parser, left brace goes to the JSON
parser, and anything else is treated as G-code. -/
inductive LineClass : Type
  | testT : LineClass
  | testU : LineClass
  | blank : LineClass
  | helpLine : LineClass
  | config : LineClass
  | jsonLine : LineClass
  | gcode : LineClass
deriving DecidableEq, Repr

/-- Classify a completed line exactly as the switch on
`toupper(tg.in_buf[0])` does. -/
def classify (line : String) : LineClass :=
  match line.data.head?.map Char.toUpper with
  | none => LineClass.blank
  | some c =>
      if c = 'T' then LineClass.testT
      else if c = 'U' then LineClass.testU
      else if c = 'H' then LineClass.helpLine
      else if c = '$' ∨ c = '?' then LineClass.config
      else if c = lbrace then LineClass.jsonLine
      else LineClass.gcode

/-- `_dispatch`: read one line from the active source (the pending read
result is the oracle pair read_status/read_line).  A read status other
than TG_OK is returned unchanged, except TG_EOF which first emits the
end-of-file notice and resets the source to default.  A completed line
is stored in the input buffer and dispatched by its classification;
every dispatch branch ends by returning TG_OK. -/
def _dispatch (s0 : Sys) : Nat × Sys :=
  if s0.read_status ≠ TG_OK then
    if s0.read_status = TG_EOF then
      (TG_EOF, tg_reset_source (emitAll s0 [("End of command file\n")]))
    else (s0.read_status, s0)
  else
    let s : Sys := { s0 with tg := { s0.tg with in_buf := s0.read_line } }
    match classify s.tg.in_buf with
    | LineClass.testT => (TG_OK, (_test_T s).2)
    | LineClass.testU => (TG_OK, (_test_U s).2)
    | LineClass.blank => (TG_OK, drState s TG_OK s.tg.in_buf)
    | LineClass.helpLine =>
        (TG_OK, drState (help_print_general_help s) TG_OK s.tg.in_buf)
    | LineClass.config =>
        let s1 : Sys :=
          if s.tg.communications_mode ≠ CommMode.grbl then
            { s with tg := { s.tg with communications_mode := CommMode.text } }
          else s
        (TG_OK, drState s1 s1.cfg_status s1.tg.in_buf)
    | LineClass.jsonLine =>
        let s1 : Sys :=
          { s with tg := { s.tg with
              communications_mode := CommMode.json, out_buf := s.json_out } }
        (TG_OK, drState s1 s1.json_status s1.tg.out_buf)
    | LineClass.gcode =>
        if s.tg.communications_mode = CommMode.json then
          let envBuf : String :=
            js_make_json_string (tg_make_json_gcode_response s.gc_status s.tg.in_buf)
          let s1 : Sys := { s with tg := { s.tg with out_buf := envBuf } }
          -- the source passes NUL (byte 0 = TG_OK) as the status here;
          -- it is ignored because the mode is JSON
          (TG_OK, drState s1 TG_OK s1.tg.out_buf)
        else
          (TG_OK, drState s s.gc_status s.tg.in_buf)

/-- Modelled from the spec: `gpio_switch_handler` (gpio.c, outside
src/) is the limit/homing switch scan callback; modelled as an oracle
status with no controller-visible state change. -/
def gpio_switch_handler (s : Sys) : Nat × Sys := (s.gpio_status, s)

/-- Modelled from the spec: `rpt_status_report_callback` (report.c,
outside src/), the conditional status-report emission. -/
def rpt_status_report_callback (s : Sys) : Nat × Sys := (s.rpt_status, s)

/-- Modelled from the spec: `mp_plan_hold_callback` (planner, outside
src/), the feedhold planning continuation. -/
def mp_plan_hold_callback (s : Sys) : Nat × Sys := (s.plan_hold_status, s)

/-- Modelled from the spec: `mp_end_hold_callback` (planner, outside
src/), the feedhold ending continuation. -/
def mp_end_hold_callback (s : Sys) : Nat × Sys := (s.end_hold_status, s)

/-- Modelled from the spec: `ar_arc_callback` (plan_arc.c, outside
src/), the arc generation step. -/
def ar_arc_callback (s : Sys) : Nat × Sys := (s.arc_status, s)

/-- Modelled from the spec: `cm_homing_callback` (canonical machine,
outside src/), the G28.1 homing continuation. -/
def cm_homing_callback (s : Sys) : Nat × Sys := (s.homing_status, s)

/-- Modelled from the spec: `cm_return_to_home_callback` (canonical
machine, outside src/), the G28 return-to-home continuation. -/
def cm_return_to_home_callback (s : Sys) : Nat × Sys := (s.return_home_status, s)

/-- The transmit gate as a probe (the gate itself mutates nothing). -/
def syncTxProbe (s : Sys) : Nat × Sys := (_sync_to_tx_buffer s, s)

/-- The planner gate as a probe. -/
def syncPlannerProbe (s : Sys) : Nat × Sys := (_sync_to_planner s, s)

/-- The thirteen probes of `_controller_HSM`, in the fixed source
order: switch/limit scan, abort, feedhold, cycle-start, status report,
feedhold plan, feedhold end, arc step, homing, return-to-home, transmit
gate, planner gate, line dispatch. -/
def controllerProbes : List (Sys → Nat × Sys) :=
  [ gpio_switch_handler,
    _abort_handler,
    _feedhold_handler,
    _cycle_start_handler,
    rpt_status_report_callback,
    mp_plan_hold_callback,
    mp_end_hold_callback,
    ar_arc_callback,
    cm_homing_callback,
    cm_return_to_home_callback,
    syncTxProbe,
    syncPlannerProbe,
    _dispatch ]

/-- One pass over a probe list under the DISPATCH macro discipline: a
probe returning TG_EAGAIN ends the pass at once (its status is the last
trace entry and no later probe runs); any other status falls through to
the next probe.  Returns the trace of statuses of the probes that ran,
and the final state. -/
def runPass {σ : Type} : List (σ → Nat × σ) → σ → List Nat × σ
  | [], s => ([], s)
  | p :: ps, s =>
      if (p s).1 = TG_EAGAIN then ([(p s).1], (p s).2)
      else ((p s).1 :: (runPass ps (p s).2).1, (runPass ps (p s).2).2)

/-- The state obtained by unconditionally running the first i probes of
the list in order (the reference states against which the trace entries
of `runPass` are measured). -/
def passStates {σ : Type} : List (σ → Nat × σ) → σ → Nat → σ
  | _, s, 0 => s
  | [], s, _ + 1 => s
  | p :: ps, s, i + 1 => passStates ps (p s).2 i

/-- `_controller_HSM`: one pass of the controller over the thirteen
probes in the fixed order. -/
def _controller_HSM (s : Sys) : List Nat × Sys :=
  runPass controllerProbes s

/-! Concrete states used to evaluate the development on explicit
inputs. -/

/-- A controller context as `tg_init` leaves it: USB default and active
source, TEXT mode, prompting enabled, empty buffers. -/
def baseTg : TgController :=
  { version := 331, build := 24,
    default_src := Device.usb, src := Device.usb,
    communications_mode := CommMode.text, prompt_enabled := true,
    in_buf := (""), out_buf := ("") }

/-- A quiescent system state: no signals pending, all external
callbacks report NOOP, empty transmit queue, planner has room, no
completed input line pending (the read reports TG_EAGAIN). -/
def baseSys : Sys :=
  { tg := baseTg,
    sig_abort := false, sig_feedhold := false, sig_cycle_start := false,
    resets := 0, feedholds := 0, cycle_starts := 0,
    gpio_status := TG_NOOP, rpt_status := TG_NOOP,
    plan_hold_status := TG_NOOP, end_hold_status := TG_NOOP,
    arc_status := TG_NOOP, homing_status := TG_NOOP,
    return_home_status := TG_NOOP,
    tx_count := fun _ => 0, lo_water := 64,
    planner_free := true, units_inches := false,
    read_status := TG_EAGAIN, read_line := (""),
    cfg_status := TG_OK, json_status := TG_OK, json_out := (""),
    gc_status := TG_OK, emitted := [] }

/-! Helper lemmas about one pass under the DISPATCH discipline. -/

theorem runPass_length_le {σ : Type} (ps : List (σ → Nat × σ)) (s : σ) :
    (runPass ps s).1.length ≤ ps.length := by
  induction ps generalizing s with
  | nil => simp [runPass]
  | cons p ps ih =>
      by_cases h : (p s).1 = TG_EAGAIN
      · simp [runPass, h]
      · simpa [runPass, h, Nat.succ_le_succ_iff] using ih ((p s).2)

theorem runPass_length_pos {σ : Type} (p : σ → Nat × σ) (ps : List (σ → Nat × σ)) (s : σ) :
    0 < (runPass (p :: ps) s).1.length := by
  by_cases h : (p s).1 = TG_EAGAIN <;> simp [runPass, h]

theorem runPass_get {σ : Type} (ps : List (σ → Nat × σ)) (s : σ) (i : Nat) (x : Nat)
    (hx : (runPass ps s).1.get? i = some x) :
    ∃ p, ps.get? i = some p ∧ x = (p (passStates ps s i)).1 := by
  induction ps generalizing s i with
  | nil => simp [runPass] at hx
  | cons p ps ih =>
      by_cases h : (p s).1 = TG_EAGAIN
      · simp only [runPass, if_pos h] at hx
        cases i with
        | zero =>
            simp only [List.get?_cons_zero, Option.some.injEq] at hx
            exact ⟨p, rfl, hx.symm⟩
        | succ n => simp at hx
      · simp only [runPass, if_neg h] at hx
        cases i with
        | zero =>
            simp only [List.get?_cons_zero, Option.some.injEq] at hx
            exact ⟨p, rfl, hx.symm⟩
        | succ n =>
            rw [List.get?_cons_succ] at hx
            obtain ⟨q, hq, hxq⟩ := ih ((p s).2) n hx
            exact ⟨q, by simpa using hq, by simpa [passStates] using hxq⟩

theorem runPass_eagain_last {σ : Type} (ps : List (σ → Nat × σ)) (s : σ) (i : Nat)
    (hx : (runPass ps s).1.get? i = some TG_EAGAIN) :
    (runPass ps s).1.length = i + 1 := by
  induction ps generalizing s i with
  | nil => simp [runPass] at hx
  | cons p ps ih =>
      by_cases h : (p s).1 = TG_EAGAIN
      · simp only [runPass, if_pos h] at hx ⊢
        cases i with
        | zero => simp
        | succ n => simp at hx
      · simp only [runPass, if_neg h] at hx ⊢
        cases i with
        | zero =>
            simp only [List.get?_cons_zero, Option.some.injEq] at hx
            exact absurd hx h
        | succ n =>
            rw [List.get?_cons_succ] at hx
            have hlen := ih ((p s).2) n hx
            simp [hlen]

theorem runPass_proceeds {σ : Type} (ps : List (σ → Nat × σ)) (s : σ) (i : Nat) (x : Nat)
    (hx : (runPass ps s).1.get? i = some x) (hne : x ≠ TG_EAGAIN)
    (hlt : i + 1 < ps.length) :
    i + 1 < (runPass ps s).1.length := by
  induction ps generalizing s i with
  | nil => simp [runPass] at hx
  | cons p ps ih =>
      by_cases h : (p s).1 = TG_EAGAIN
      · simp only [runPass, if_pos h] at hx
        cases i with
        | zero =>
            simp only [List.get?_cons_zero, Option.some.injEq] at hx
            exact absurd (hx.symm.trans h) hne
        | succ n => simp at hx
      · simp only [runPass, if_neg h]
        cases i with
        | zero =>
            cases ps with
            | nil => simp at hlt
            | cons q qs =>
                have hp := runPass_length_pos q qs ((p s).2)
                simp only [List.length_cons]
                omega
        | succ n =>
            simp only [runPass, if_neg h, List.get?_cons_succ] at hx
            have hrec := ih ((p s).2) n hx (by simpa using hlt)
            simp only [List.length_cons]
            omega

/-- Claim C1: every pass attempts the thirteen probes in the fixed
priority order (the order of `controllerProbes`, which is the source
order: switch/limit scan, abort, feedhold, cycle-start, status report,
feedhold plan, feedhold end, arc step, homing, return-to-home, transmit
gate, planner gate, line dispatch); each trace entry is the status of
the corresponding probe run on the state produced by its predecessors;
a probe returning TG_EAGAIN (CONTINUE) is the last entry of the pass,
so no lower-priority probe executes that pass; and a probe returning
anything else is followed by the next probe whenever one exists. -/
theorem claim1_pass_priority_order (s : Sys) :
    (_controller_HSM s).1.length ≤ controllerProbes.length ∧
    controllerProbes.length = 13 ∧
    (∀ i x, (_controller_HSM s).1.get? i = some x →
        ∃ p, controllerProbes.get? i = some p ∧
          x = (p (passStates controllerProbes s i)).1) ∧
    (∀ i, (_controller_HSM s).1.get? i = some TG_EAGAIN →
        (_controller_HSM s).1.length = i + 1) ∧
    (∀ i x, (_controller_HSM s).1.get? i = some x → x ≠ TG_EAGAIN →
        i + 1 < controllerProbes.length → i + 1 < (_controller_HSM s).1.length) :=
  ⟨runPass_length_le controllerProbes s, rfl,
   fun i x hx => runPass_get controllerProbes s i x hx,
   fun i hx => runPass_eagain_last controllerProbes s i hx,
   fun i x hx hne hlt => runPass_proceeds controllerProbes s i x hx hne hlt⟩

/-- Claim C1 witness at the quiescent state. -/
theorem claim1_witness :
    (_controller_HSM baseSys).1.length ≤ controllerProbes.length :=
  (claim1_pass_priority_order baseSys).1

/-- Source switching preserves the signal flags and the transition
counters. -/
theorem set_active_source_preserves (s : Sys) (d : Device) :
    (_set_active_source s d).resets = s.resets ∧
    (_set_active_source s d).feedholds = s.feedholds ∧
    (_set_active_source s d).cycle_starts = s.cycle_starts ∧
    (_set_active_source s d).sig_abort = s.sig_abort ∧
    (_set_active_source s d).sig_feedhold = s.sig_feedhold ∧
    (_set_active_source s d).sig_cycle_start = s.sig_cycle_start := by
  unfold _set_active_source
  split <;> simp

/-- `tg_reset` performs exactly one context reset, no feedhold and no
cycle start, and leaves the signal flags alone. -/
theorem tg_reset_counters (s : Sys) :
    (tg_reset s).resets = s.resets + 1 ∧
    (tg_reset s).feedholds = s.feedholds ∧
    (tg_reset s).cycle_starts = s.cycle_starts ∧
    (tg_reset s).sig_abort = s.sig_abort := by
  simp only [tg_reset, tg_application_init, _set_active_source]
  split <;> simp

/-- Claim C2: each of the three signal handlers returns TG_NOOP and
changes nothing when its flag is unset; when its flag is set it clears
the flag first (the transition runs on the flag-cleared state),
performs exactly one transition — a context reset for abort, one
feedhold start for feedhold, one cycle resume for cycle-start, and none
of the other two — and returns TG_EAGAIN (CONTINUE). -/
theorem claim2_signal_handlers (s : Sys) :
    (s.sig_abort = false → _abort_handler s = (TG_NOOP, s)) ∧
    (s.sig_abort = true →
      _abort_handler s = (TG_EAGAIN, tg_reset { s with sig_abort := false }) ∧
      (_abort_handler s).2.sig_abort = false ∧
      (_abort_handler s).2.resets = s.resets + 1 ∧
      (_abort_handler s).2.feedholds = s.feedholds ∧
      (_abort_handler s).2.cycle_starts = s.cycle_starts) ∧
    (s.sig_feedhold = false → _feedhold_handler s = (TG_NOOP, s)) ∧
    (s.sig_feedhold = true →
      _feedhold_handler s = (TG_EAGAIN, cm_feedhold { s with sig_feedhold := false }) ∧
      (_feedhold_handler s).2.sig_feedhold = false ∧
      (_feedhold_handler s).2.feedholds = s.feedholds + 1 ∧
      (_feedhold_handler s).2.resets = s.resets ∧
      (_feedhold_handler s).2.cycle_starts = s.cycle_starts) ∧
    (s.sig_cycle_start = false → _cycle_start_handler s = (TG_NOOP, s)) ∧
    (s.sig_cycle_start = true →
      _cycle_start_handler s = (TG_EAGAIN, cm_cycle_start { s with sig_cycle_start := false }) ∧
      (_cycle_start_handler s).2.sig_cycle_start = false ∧
      (_cycle_start_handler s).2.cycle_starts = s.cycle_starts + 1 ∧
      (_cycle_start_handler s).2.resets = s.resets ∧
      (_cycle_start_handler s).2.feedholds = s.feedholds) := by
  refine ⟨?_, ?_, ?_, ?_, ?_, ?_⟩
  · intro h; simp [_abort_handler, h]
  · intro h
    have he : _abort_handler s = (TG_EAGAIN, tg_reset { s with sig_abort := false }) := by
      simp [_abort_handler, h]
    have hc := tg_reset_counters { s with sig_abort := false }
    refine ⟨he, ?_, ?_, ?_, ?_⟩ <;> rw [he]
    · exact hc.2.2.2
    · exact hc.1
    · exact hc.2.1
    · exact hc.2.2.1
  · intro h; simp [_feedhold_handler, h]
  · intro h
    have he : _feedhold_handler s =
        (TG_EAGAIN, cm_feedhold { s with sig_feedhold := false }) := by
      simp [_feedhold_handler, h]
    refine ⟨he, ?_, ?_, ?_, ?_⟩ <;> rw [he] <;> simp [cm_feedhold]
  · intro h; simp [_cycle_start_handler, h]
  · intro h
    have he : _cycle_start_handler s =
        (TG_EAGAIN, cm_cycle_start { s with sig_cycle_start := false }) := by
      simp [_cycle_start_handler, h]
    refine ⟨he, ?_, ?_, ?_, ?_⟩ <;> rw [he] <;> simp [cm_cycle_start]

/-- A state with all three signal flags pending. -/
def sigSys : Sys :=
  { baseSys with sig_abort := true, sig_feedhold := true, sig_cycle_start := true }

/-- Claim C2 witness: the abort handler on a state with the abort flag
set, and the feedhold handler on the quiescent state. -/
theorem claim2_witness :
    _abort_handler sigSys = (TG_EAGAIN, tg_reset { sigSys with sig_abort := false }) ∧
    _feedhold_handler baseSys = (TG_NOOP, baseSys) :=
  ⟨((claim2_signal_handlers sigSys).2.1 rfl).1,
   (claim2_signal_handlers baseSys).2.2.1 rfl⟩

/-- Claim C3: the response emitter by communications mode: JSON emits
the buffer verbatim and nothing else; GRBL emits exactly "ok" on TG_OK
and exactly "err" on any other status, with no message and no prompt;
TEXT emits only the unit-aware prompt for TG_OK, TG_EAGAIN and TG_NOOP,
and the status message plus the buffer followed by the prompt for any
other status. -/
theorem claim3_response_emitter (inches : Bool) (status : Nat) (buf : String) :
    _dispatch_return CommMode.json inches status buf = [buf] ∧
    (status = TG_OK → _dispatch_return CommMode.grbl inches status buf = [("ok")]) ∧
    (status ≠ TG_OK → _dispatch_return CommMode.grbl inches status buf = [("err")]) ∧
    (status = TG_OK ∨ status = TG_EAGAIN ∨ status = TG_NOOP →
      _dispatch_return CommMode.text inches status buf = [promptString inches]) ∧
    (¬(status = TG_OK ∨ status = TG_EAGAIN ∨ status = TG_NOOP) →
      _dispatch_return CommMode.text inches status buf =
        [statusMessage status ++ (": ") ++ buf ++ (" \n"), promptString inches]) := by
  refine ⟨rfl, ?_, ?_, ?_, ?_⟩ <;> intro h <;>
    simp [_dispatch_return, _prompt_without_message, _prompt_with_message, h]

/-- Claim C3 witness at status 14 (Unrecognized command). -/
theorem claim3_witness :
    _dispatch_return CommMode.grbl true 14 ("x") = [("err")] ∧
    _dispatch_return CommMode.text true 14 ("x") =
      [statusMessage 14 ++ (": ") ++ ("x") ++ (" \n"), promptString true] :=
  ⟨(claim3_response_emitter true 14 ("x")).2.2.1 (by decide),
   (claim3_response_emitter true 14 ("x")).2.2.2.2 (by decide)⟩

/-- Claim C6 (amended): the transmit gate returns TG_EAGAIN exactly
when the queued outbound byte count of the fixed USB device — not the
currently active input source — has reached the configured low-water
mark, and TG_OK otherwise; the planner gate returns TG_EAGAIN exactly
when no free planner write buffer is reported, and TG_OK otherwise; and
in the fixed pass order the transmit gate and the planner gate occupy
the two positions directly before the final line-dispatch probe. -/
theorem claim6_flow_gates (s : Sys) :
    (_sync_to_tx_buffer s = TG_EAGAIN ↔ s.lo_water ≤ s.tx_count Device.usb) ∧
    (_sync_to_tx_buffer s ≠ TG_EAGAIN → _sync_to_tx_buffer s = TG_OK) ∧
    (_sync_to_planner s = TG_EAGAIN ↔ s.planner_free = false) ∧
    (_sync_to_planner s ≠ TG_EAGAIN → _sync_to_planner s = TG_OK) ∧
    controllerProbes.get? 10 = some syncTxProbe ∧
    controllerProbes.get? 11 = some syncPlannerProbe ∧
    controllerProbes.get? 12 = some _dispatch ∧
    controllerProbes.length = 13 := by
  refine ⟨?_, ?_, ?_, ?_, rfl, rfl, rfl, rfl⟩
  · unfold _sync_to_tx_buffer; split <;> simp_all [TG_OK, TG_EAGAIN]
  · unfold _sync_to_tx_buffer; split <;> simp_all [TG_OK, TG_EAGAIN]
  · unfold _sync_to_planner; split <;> simp_all [TG_OK, TG_EAGAIN]
  · unfold _sync_to_planner; split <;> simp_all [TG_OK, TG_EAGAIN]

/-- Claim C6 witness at the quiescent state (empty transmit queue,
planner has room: both gates pass). -/
theorem claim6_witness :
    _sync_to_tx_buffer baseSys ≠ TG_EAGAIN → _sync_to_tx_buffer baseSys = TG_OK :=
  (claim6_flow_gates baseSys).2.1

/-- A state whose active source is the diagnostic script device while
the USB transmit queue stands exactly at the low-water mark. -/
def gateSys : Sys :=
  { baseSys with
    tg := { baseTg with src := Device.pgm, prompt_enabled := false },
    tx_count := fun d => match d with
      | Device.usb => 64
      | Device.stdError => 0
      | Device.pgm => 0,
    lo_water := 64 }

/-- Claim C6 counterexample: the claim keys the transmit gate on the
active device, but the source reads `ds[XIO_DEV_USB]` unconditionally:
here the active source is the program-memory device, whose queued count
(0) is below the threshold (64), yet the gate still returns TG_EAGAIN
because the USB queue is at the mark. -/
theorem claim6_counterexample :
    gateSys.tg.src = Device.pgm ∧
    gateSys.tx_count gateSys.tg.src < gateSys.lo_water ∧
    _sync_to_tx_buffer gateSys = TG_EAGAIN :=
  ⟨rfl, by decide, rfl⟩

/-- Claim C7: whenever the abort handler observes the abort flag set,
the state it leaves behind has the default device as the active input
source and prompting re-enabled, regardless of the previously active
source (the default device is the interactive console, not the
program-memory script device). -/
theorem claim7_abort_restores_default_source (s : Sys) (h : s.sig_abort = true)
    (hd : s.tg.default_src ≠ Device.pgm) :
    (_abort_handler s).2.tg.src = s.tg.default_src ∧
    (_abort_handler s).2.tg.prompt_enabled = true := by
  simp only [_abort_handler, h]
  simp [tg_reset, tg_application_init, _set_active_source, hd]

/-- A state running the diagnostic script (prompting off) with the
abort flag pending. -/
def abortScriptSys : Sys :=
  { baseSys with
    sig_abort := true,
    tg := { baseTg with src := Device.pgm, prompt_enabled := false } }

/-- Claim C7 witness: abort while the diagnostic script is the active
source restores the USB default and prompting. -/
theorem claim7_witness :
    (_abort_handler abortScriptSys).2.tg.src = abortScriptSys.tg.default_src ∧
    (_abort_handler abortScriptSys).2.tg.prompt_enabled = true :=
  claim7_abort_restores_default_source abortScriptSys rfl (by decide)

/-- A state whose active source is the diagnostic script (so the
prompt-enabled flag is off) with a completed blank input line
pending, in TEXT mode. -/
def scriptSys : Sys :=
  { baseSys with
    tg := { baseTg with src := Device.pgm, prompt_enabled := false },
    read_status := TG_OK, read_line := ("") }

/-- Claim C8 (code bug): switching the active source to the
program-memory script device does clear the prompt-enabled flag and
switching back to the USB device sets it again, but no emitter path
ever consults that flag — `_prompt_without_message` prints
unconditionally — so dispatching a blank line in TEXT mode while the
script is the active source still emits a prompt. -/
theorem claim8_prompt_despite_script :
    (_set_active_source baseSys Device.pgm).tg.prompt_enabled = false ∧
    (_set_active_source scriptSys Device.usb).tg.prompt_enabled = true ∧
    scriptSys.tg.src = Device.pgm ∧
    scriptSys.tg.prompt_enabled = false ∧
    (_dispatch scriptSys).2.emitted = [promptString false] :=
  ⟨rfl, rfl, rfl, rfl, rfl⟩

/-- Claim C9 (code bug): the message table has exactly 32 entries and
`tg_get_status_message` indexes it with no bounds check, so status 32
is an out-of-bounds program-memory read (`none` in the embedding)
rather than a generic "unknown status" result; in-range codes resolve
normally. -/
theorem claim9_status_lookup_unchecked :
    msgStatus.length = 32 ∧
    tg_get_status_message 0 = some ("OK") ∧
    tg_get_status_message 31 = some ("Max spindle speed exceeded") ∧
    tg_get_status_message 32 = none :=
  ⟨rfl, rfl, rfl, rfl⟩

/-- Claim C10: when the non-blocking read reports a status that is
neither TG_OK nor TG_EAGAIN nor TG_EOF, `_dispatch` returns that status
unchanged with the state untouched — no diagnostic output, no source
reset, no mode change, no line processed — and, not being TG_EAGAIN,
that status does not end the pass early (and line dispatch is the last
probe anyway). -/
theorem claim10_read_error_passthrough (s : Sys)
    (h1 : s.read_status ≠ TG_OK) (h3 : s.read_status ≠ TG_EOF)
    (h2 : s.read_status ≠ TG_EAGAIN) :
    _dispatch s = (s.read_status, s) ∧ (_dispatch s).1 ≠ TG_EAGAIN := by
  have hd : _dispatch s = (s.read_status, s) := by
    unfold _dispatch
    rw [if_pos h1, if_neg h3]
  exact ⟨hd, by rw [hd]; exact h2⟩

/-- A state whose pending read reports status 11 (Buffer full -
fatal). -/
def readErrSys : Sys := { baseSys with read_status := 11 }

/-- Claim C10 witness at read status 11. -/
theorem claim10_witness :
    _dispatch readErrSys = (readErrSys.read_status, readErrSys) ∧
    (_dispatch readErrSys).1 ≠ TG_EAGAIN :=
  claim10_read_error_passthrough readErrSys (by decide) (by decide) (by decide)

/-- Classification of a nonempty line reduces to the uppercased first
character. -/
theorem classify_head (c : Char) (rest : List Char) :
    classify (String.mk (c :: rest)) =
      (if c.toUpper = 'T' then LineClass.testT
       else if c.toUpper = 'U' then LineClass.testU
       else if c.toUpper = 'H' then LineClass.helpLine
       else if c.toUpper = '$' ∨ c.toUpper = '?' then LineClass.config
       else if c.toUpper = lbrace then LineClass.jsonLine
       else LineClass.gcode) := rfl

/-- A line whose first character uppercases to the dollar or question
mark goes to the config class. -/
theorem classify_config_of_head (c : Char) (rest : List Char)
    (hc : c.toUpper = '$' ∨ c.toUpper = '?') :
    classify (String.mk (c :: rest)) = LineClass.config := by
  rw [classify_head]
  rcases hc with h | h <;> rw [h] <;> decide

/-- A line whose first character is the left brace goes to the JSON
class. -/
theorem classify_json_of_head (c : Char) (rest : List Char)
    (hc : c.toUpper = lbrace) :
    classify (String.mk (c :: rest)) = LineClass.jsonLine := by
  rw [classify_head, hc]
  decide

/-- Claim C4: classification of a completed line is by its first
character case-insensitively.  A line starting with dollar or question
mark forces the communications mode to TEXT unless it is already
GRBL-compatible (then it is unchanged), hands the line to the config
parser and feeds the parser result to the emitter under that mode.  A
line starting with a left brace forces the mode to JSON unconditionally,
hands the line to the JSON parser and feeds the resulting status and
output buffer to the emitter (which, in JSON mode, emits that buffer
verbatim).  Both branches complete the probe with TG_OK. -/
theorem claim4_line_classification (s : Sys) (c : Char) (rest : List Char)
    (hr : s.read_status = TG_OK) (hl : s.read_line = String.mk (c :: rest)) :
    (c.toUpper = '$' ∨ c.toUpper = '?' →
      (_dispatch s).1 = TG_OK ∧
      (_dispatch s).2.tg.communications_mode =
        (if s.tg.communications_mode = CommMode.grbl then CommMode.grbl
         else CommMode.text) ∧
      (_dispatch s).2.emitted = s.emitted ++
        _dispatch_return
          (if s.tg.communications_mode = CommMode.grbl then CommMode.grbl
           else CommMode.text)
          s.units_inches s.cfg_status s.read_line) ∧
    (c.toUpper = lbrace →
      (_dispatch s).1 = TG_OK ∧
      (_dispatch s).2.tg.communications_mode = CommMode.json ∧
      (_dispatch s).2.tg.out_buf = s.json_out ∧
      (_dispatch s).2.emitted = s.emitted ++
        _dispatch_return CommMode.json s.units_inches s.json_status s.json_out) := by
  constructor
  · intro hc
    have hcl : classify (String.mk (c :: rest)) = LineClass.config :=
      classify_config_of_head c rest hc
    by_cases hm : s.tg.communications_mode = CommMode.grbl
    · simp [_dispatch, hr, hl, hcl, hm, drState, emitAll]
    · simp [_dispatch, hr, hl, hcl, hm, drState, emitAll]
  · intro hc
    have hcl : classify (String.mk (c :: rest)) = LineClass.jsonLine :=
      classify_json_of_head c rest hc
    simp [_dispatch, hr, hl, hcl, drState, emitAll]

/-- A TEXT-mode state with a completed config line pending whose parse
will report status 14 (Unrecognized command). -/
def cfgSys : Sys :=
  { baseSys with read_status := TG_OK, read_line := ("$x"), cfg_status := 14 }

/-- Claim C4 witness on the line starting with the dollar sign. -/
theorem claim4_witness :
    (_dispatch cfgSys).1 = TG_OK ∧
    (_dispatch cfgSys).2.tg.communications_mode =
      (if cfgSys.tg.communications_mode = CommMode.grbl then CommMode.grbl
       else CommMode.text) ∧
    (_dispatch cfgSys).2.emitted = cfgSys.emitted ++
      _dispatch_return
        (if cfgSys.tg.communications_mode = CommMode.grbl then CommMode.grbl
         else CommMode.text)
        cfgSys.units_inches cfgSys.cfg_status cfgSys.read_line :=
  (claim4_line_classification cfgSys '$' [ 'x' ] rfl rfl).1 (by decide)

/-- Claim C5: a G-code line dispatched in JSON mode builds the envelope
as the ordered sequence group marker, echoed command text (string),
numeric status (integer), message text of that status (string); the
status recorded in the envelope is exactly the G-code parser result
(envelope building has no failure path that could change it), and the
serialized envelope becomes the output buffer. -/
theorem claim5_json_gcode_envelope (s : Sys)
    (hr : s.read_status = TG_OK)
    (hm : s.tg.communications_mode = CommMode.json)
    (hg : classify s.read_line = LineClass.gcode) :
    (tg_make_json_gcode_response s.gc_status s.read_line).length = 4 ∧
    (tg_make_json_gcode_response s.gc_status s.read_line).get? 0 =
      some { token := ("gc"), value_type := ValueType.parent,
             string_value := (""), value := 0 } ∧
    (tg_make_json_gcode_response s.gc_status s.read_line).get? 1 =
      some { token := ("gc"), value_type := ValueType.stringV,
             string_value := s.read_line, value := 0 } ∧
    (tg_make_json_gcode_response s.gc_status s.read_line).get? 2 =
      some { token := ("st"), value_type := ValueType.integer,
             string_value := (""), value := s.gc_status } ∧
    (tg_make_json_gcode_response s.gc_status s.read_line).get? 3 =
      some { token := ("msg"), value_type := ValueType.stringV,
             string_value := statusMessage s.gc_status, value := 0 } ∧
    (_dispatch s).2.tg.out_buf =
      js_make_json_string (tg_make_json_gcode_response s.gc_status s.read_line) ∧
    (_dispatch s).1 = TG_OK := by
  refine ⟨rfl, rfl, rfl, rfl, rfl, ?_, ?_⟩
  · simp [_dispatch, hr, hg, hm, drState, emitAll]
  · simp [_dispatch, hr, hg, hm]

/-- A JSON-mode state with a completed G-code line pending whose parse
will report TG_OK. -/
def gcodeJsonSys : Sys :=
  { baseSys with
    tg := { baseTg with communications_mode := CommMode.json },
    read_status := TG_OK, read_line := ("g0 x10"), gc_status := TG_OK }

/-- Claim C5 witness on the line g0 x10 in JSON mode. -/
theorem claim5_witness :
    (tg_make_json_gcode_response gcodeJsonSys.gc_status gcodeJsonSys.read_line).get? 2 =
      some { token := ("st"), value_type := ValueType.integer,
             string_value := (""), value := gcodeJsonSys.gc_status } ∧
    (_dispatch gcodeJsonSys).2.tg.out_buf =
      js_make_json_string
        (tg_make_json_gcode_response gcodeJsonSys.gc_status gcodeJsonSys.read_line) :=
  ⟨(claim5_json_gcode_envelope gcodeJsonSys rfl rfl (by decide)).2.2.2.1,
   (claim5_json_gcode_envelope gcodeJsonSys rfl rfl (by decide)).2.2.2.2.2.1⟩

end TinyG
